import Mathlib

/-!
Shallow embedding of the survey validation-and-scoring backend
(`src/main.py`): question lists, table column lists, validation,
summation, classification chains and the three survey-submission
endpoints, with theorems settling the specification claims.
-/

namespace ProgressiveBackend

/-- Pydantic schema `SurveySubmission`: a mapping from question
identifier to integer response (a Python dict, modelled as an
association list with unique keys) plus the responding user's id. -/
structure SurveySubmission where
  responses : List (String × Int)
  user_id : Int
deriving Repr, DecidableEq

/-- Constant list `ISMA_QUESTIONS` (main.py lines 150-157). -/
def ISMA_QUESTIONS : List String :=
  ["sleep_enough", "appetite_change", "guilt_feeling", "overthinking",
   "focus_memory", "no_hobby_time", "muscle_pain", "addiction",
   "work_at_home", "enough_time", "ignore_problems", "perfectionist",
   "bad_time_estimate", "overwhelmed", "low_self_esteem", "impatient",
   "hurried", "road_rage", "competitive", "critical", "distracted",
   "low_libido", "teeth_grinding", "performance_drop"]

/-- Constant list `INSOMNIA_QUESTIONS` (main.py lines 159-162). -/
def INSOMNIA_QUESTIONS : List String :=
  ["Fall Asleep", "Stay Asleep", "Early Rising", "Sleep Satisfaction",
   "Daily Impact", "Life Quality", "Sleep Concern"]

/-- Constant list `FATIGUE_QUESTIONS` (main.py lines 164-170). -/
def FATIGUE_QUESTIONS : List String :=
  ["Sleep Disorder", "Waking Fatigue", "Focus Issue", "Muscle Pain",
   "Body Pain", "Head Pain", "Neck Shoulder Stiffness", "Throat Pain",
   "Motion Dizziness", "Exercise Fatigue", "Eye Sensitivity", "Numb Sensation",
   "Anxiety Issue", "Restless Sleep", "Cold Sensitivity", "Stomach Upset",
   "Allergic Reaction"]

/-- Python `set(a) == set(b)` on lists of strings: equality as sets,
ignoring order and multiplicity. -/
def setEq (a b : List String) : Bool :=
  a.all (fun k => b.contains k) && b.all (fun k => a.contains k)

/-- Python `sum(responses.values())`: the arithmetic sum of all response
values of the dict. -/
def sumValues (resp : List (String × Int)) : Int :=
  (resp.map Prod.snd).sum

/-- Key normalization used at row-build time for Insomnia and Fatigue:
Python `q.replace(" ", "_").lower()` (main.py lines 257 and 289).  The
pattern is the single character `" "` and all declared keys are ASCII, so
replace-then-lower coincides with this character-wise map. -/
def normKey (q : String) : String :=
  ⟨q.data.map (fun c => if c = ' ' then '_' else c.toLower)⟩

/-- ISMA classification chain (main.py lines 214-219): `<=` thresholds. -/
def ismaClassify (total_sum : Int) : String :=
  if total_sum ≤ 5 then "Стрессээр өвчлөх магадлал бага"
  else if total_sum ≤ 10 then "Стрессээр өвчлөх магадлал өндөр"
  else "Стрессийн түвшин маш өндөр байна"

/-- Insomnia classification chain (main.py lines 246-253): strict `<`
thresholds. -/
def insomniaClassify (total_sum : Int) : String :=
  if total_sum < 8 then "Нойргүйдэл байхгүй"
  else if total_sum < 15 then "Нойргүйдлийн зэрэг бага"
  else if total_sum < 22 then "Дунд зэргийн нойргүйдэлтэй"
  else "Нойргүйдлийн зэрэг хүнд явцтай"

/-- Fatigue classification chain (main.py lines 279-286): `<=`
thresholds. -/
def fatigueClassify (total_sum : Int) : String :=
  if total_sum ≤ 10 then "Архаг ядаргаатай"
  else if total_sum ≤ 24 then "Бага зэргийн архаг ядаргаатай"
  else if total_sum ≤ 51 then "Дунд зэргийн архаг ядаргаатай"
  else "Хүнд зэргийн архаг ядаргаатай"

/-- Canonical per-question columns of the `Insomnia` model / `insomnia_web`
table (main.py lines 73-85), between `user_id` and `total_sum`. -/
def INSOMNIA_COLUMNS : List String :=
  ["fall_asleep", "stay_asleep", "early_rising", "sleep_satisfaction",
   "daily_impact", "life_quality", "sleep_concern"]

/-- Canonical per-question columns of the `Fatigue` model / `fatigue`
table (main.py lines 87-109), between `user_id` and `total_sum`. -/
def FATIGUE_COLUMNS : List String :=
  ["sleep_disorder", "waking_fatigue", "focus_issue", "muscle_pain",
   "body_pain", "head_pain", "neck_shoulder_stiffness", "throat_pain",
   "motion_dizziness", "exercise_fatigue", "eye_sensitivity", "numb_sensation",
   "anxiety_issue", "restless_sleep", "cold_sensitivity", "stomach_upset",
   "allergic_reaction"]

/-- All columns of the `Insomnia` model accepted as constructor keyword
arguments. -/
def INSOMNIA_TABLE_COLUMNS : List String :=
  "insomnia_id" :: "user_id" :: INSOMNIA_COLUMNS ++ ["total_sum", "question_mn"]

/-- All columns of the `Fatigue` model accepted as constructor keyword
arguments. -/
def FATIGUE_TABLE_COLUMNS : List String :=
  "fatigue_id" :: "user_id" :: FATIGUE_COLUMNS ++ ["total_sum", "question_mn"]

/-- Value stored in a persistence-row field: the integer columns and the
string column `question_mn`. -/
inductive Value where
  | int (i : Int)
  | str (s : String)
deriving Repr, DecidableEq

/-- A persistence row as built by the endpoints: the keyword-argument
dict handed to the SQLAlchemy model constructor (`Isma(**isma_data)`
etc.), in insertion order. -/
abbrev Row := List (String × Value)

/-- Errors an endpoint can raise: `HTTPException(status, detail)` from
validation, Python `AttributeError` (accessing a missing attribute such
as `submission.user_idisma_data`), `KeyError` (dict access on a missing
key), and `TypeError` (unknown keyword argument to a model constructor). -/
inductive ApiError where
  | httpException (status : Nat) (detail : String)
  | attributeError (attr : String)
  | keyError (key : String)
  | typeError (msg : String)
deriving Repr, DecidableEq

/-- Dict access `resp[q]` with default 0; under validation the key is
always present, so the default is never the value actually used. -/
def getD (resp : List (String × Int)) (q : String) : Int :=
  (List.lookup q resp).getD 0

/-- The dict comprehension `{norm q: submission.responses[q] for q in qs}`:
builds the per-question entries of a row, raising `KeyError` if a declared
question is absent from the responses.  The declared lists normalize
injectively, so the association list has no duplicate keys, exactly like
the Python dict. -/
def buildData (resp : List (String × Int)) (qs : List String)
    (norm : String → String) : Except ApiError Row :=
  match qs with
  | [] => .ok []
  | q :: rest =>
    match List.lookup q resp with
    | none => .error (.keyError q)
    | some v =>
      match buildData resp rest norm with
      | .error e => .error e
      | .ok tail => .ok ((norm q, Value.int v) :: tail)

/-- Endpoint `POST /survey/isma` (main.py lines 204-234).  After
validation and scoring, line 223 evaluates `submission.user_idisma_data`;
`SurveySubmission` has no such attribute, so Python raises
`AttributeError` before any row is constructed or persisted. -/
def submit_isma_survey (submission : SurveySubmission) :
    Except ApiError (Row × String) :=
  if !(setEq ISMA_QUESTIONS (submission.responses.map Prod.fst)) then
    .error (.httpException 400 "Missing or extra questions in submission")
  else
    let total_sum := sumValues submission.responses
    let question_mn := ismaClassify total_sum
    match buildData submission.responses ISMA_QUESTIONS (fun q => q) with
    | .error e => .error e
    | .ok _isma_data =>
      .error (.attributeError "user_idisma_data")

/-- Endpoint `POST /survey/insomnia` (main.py lines 236-271): validate the
raw external keys, sum, classify, build the row under `normKey`, add
`user_id`, `total_sum`, `question_mn`, and persist; the constructor call
`Insomnia(**insomnia_data)` rejects unknown keyword arguments. -/
def submit_insomnia_survey (submission : SurveySubmission) :
    Except ApiError (Row × String) :=
  if !(setEq INSOMNIA_QUESTIONS (submission.responses.map Prod.fst)) then
    .error (.httpException 400 "Missing or extra questions in submission")
  else
    let total_sum := sumValues submission.responses
    let question_mn := insomniaClassify total_sum
    match buildData submission.responses INSOMNIA_QUESTIONS normKey with
    | .error e => .error e
    | .ok entries =>
      let insomnia_data := entries ++
        [("user_id", Value.int submission.user_id),
         ("total_sum", Value.int total_sum),
         ("question_mn", Value.str question_mn)]
      if insomnia_data.all (fun p => INSOMNIA_TABLE_COLUMNS.contains p.1) then
        .ok (insomnia_data, question_mn)
      else
        .error (.typeError "invalid keyword argument")

/-- Endpoint `POST /survey/fatigue` (main.py lines 273-300): same shape as
the insomnia endpoint, with its own question list, bands and error
message. -/
def submit_fatigue_survey (submission : SurveySubmission) :
    Except ApiError (Row × String) :=
  if !(setEq FATIGUE_QUESTIONS (submission.responses.map Prod.fst)) then
    .error (.httpException 400 "Missing or extra questions in Fatigue submission")
  else
    let total_sum := sumValues submission.responses
    let question_mn := fatigueClassify total_sum
    match buildData submission.responses FATIGUE_QUESTIONS normKey with
    | .error e => .error e
    | .ok entries =>
      let fatigue_data := entries ++
        [("user_id", Value.int submission.user_id),
         ("total_sum", Value.int total_sum),
         ("question_mn", Value.str question_mn)]
      if fatigue_data.all (fun p => FATIGUE_TABLE_COLUMNS.contains p.1) then
        .ok (fatigue_data, question_mn)
      else
        .error (.typeError "invalid keyword argument")

/-- Integer stored in a row at column `k` (0 if absent or non-integer;
used only at columns the theorems prove are present integers). -/
def rowInt (row : Row) (k : String) : Int :=
  match List.lookup k row with
  | some (Value.int i) => i
  | _ => 0

/-- One row of an instrument's classification-band table: an integer
interval, unbounded when a bound is `none`, with its label. -/
structure ScoreBand where
  lo : Option Int
  hi : Option Int
  label : String

/-- Membership of a sum in a band's interval. -/
def bandMatches (s : Int) (b : ScoreBand) : Bool :=
  (match b.lo with | none => true | some l => decide (l ≤ s)) &&
  (match b.hi with | none => true | some h => decide (s ≤ h))

/-- First-match band lookup: the label of the first band containing `s`,
`none` being the `NoMatchingBand` configuration failure of the spec. -/
def classifyBands (bands : List ScoreBand) (s : Int) : Option String :=
  (bands.find? (bandMatches s)).map ScoreBand.label

/-- The ISMA chain as a band table: the intervals carved out by its `<=`
thresholds. -/
def ismaBands : List ScoreBand :=
  [⟨none, some 5, "Стрессээр өвчлөх магадлал бага"⟩,
   ⟨some 6, some 10, "Стрессээр өвчлөх магадлал өндөр"⟩,
   ⟨some 11, none, "Стрессийн түвшин маш өндөр байна"⟩]

/-- The Insomnia chain as a band table: the intervals carved out by its
strict `<` thresholds. -/
def insomniaBands : List ScoreBand :=
  [⟨none, some 7, "Нойргүйдэл байхгүй"⟩,
   ⟨some 8, some 14, "Нойргүйдлийн зэрэг бага"⟩,
   ⟨some 15, some 21, "Дунд зэргийн нойргүйдэлтэй"⟩,
   ⟨some 22, none, "Нойргүйдлийн зэрэг хүнд явцтай"⟩]

/-- The Fatigue chain as a band table: the intervals carved out by its
`<=` thresholds. -/
def fatigueBands : List ScoreBand :=
  [⟨none, some 10, "Архаг ядаргаатай"⟩,
   ⟨some 11, some 24, "Бага зэргийн архаг ядаргаатай"⟩,
   ⟨some 25, some 51, "Дунд зэргийн архаг ядаргаатай"⟩,
   ⟨some 52, none, "Хүнд зэргийн архаг ядаргаатай"⟩]

/-- The per-question entries of a row: the value of the dict comprehension
`{norm q: submission.responses[q] for q in qs}` when every declared
question is present. -/
def questionEntries (resp : List (String × Int)) (qs : List String)
    (norm : String → String) : Row :=
  qs.map fun q => (norm q, Value.int (getD resp q))

/-- The full `insomnia_data` row built by the insomnia endpoint for a
valid submission. -/
def insomniaRow (resp : List (String × Int)) (u : Int) : Row :=
  questionEntries resp INSOMNIA_QUESTIONS normKey ++
  [("user_id", Value.int u),
   ("total_sum", Value.int (sumValues resp)),
   ("question_mn", Value.str (insomniaClassify (sumValues resp)))]

/-- The full `fatigue_data` row built by the fatigue endpoint for a valid
submission. -/
def fatigueRow (resp : List (String × Int)) (u : Int) : Row :=
  questionEntries resp FATIGUE_QUESTIONS normKey ++
  [("user_id", Value.int u),
   ("total_sum", Value.int (sumValues resp)),
   ("question_mn", Value.str (fatigueClassify (sumValues resp)))]

/-- A complete ISMA submission answering every question with 0. -/
def ismaAllZero : SurveySubmission :=
  ⟨ISMA_QUESTIONS.map (fun q => (q, 0)), 1⟩

/-- A complete ISMA submission answering every question with 1. -/
def ismaAllOne : SurveySubmission :=
  ⟨ISMA_QUESTIONS.map (fun q => (q, 1)), 1⟩

/-- An ISMA submission missing exactly the question `sleep_enough`. -/
def ismaMissingOne : SurveySubmission :=
  ⟨(ISMA_QUESTIONS.drop 1).map (fun q => (q, 0)), 1⟩

/-- An ISMA submission with one extra, unrecognized key. -/
def ismaExtraKey : SurveySubmission :=
  ⟨("extra_question", 0) :: ISMA_QUESTIONS.map (fun q => (q, 0)), 1⟩

/-- A complete insomnia submission (external keys) answering every
question with 1. -/
def insomniaAllOne : SurveySubmission :=
  ⟨INSOMNIA_QUESTIONS.map (fun q => (q, 1)), 1⟩

/-- An insomnia submission keyed by the canonical column identifiers
instead of the declared external keys. -/
def insomniaCanonicalKeys : SurveySubmission :=
  ⟨INSOMNIA_COLUMNS.map (fun q => (q, 0)), 1⟩

/-- An insomnia submission (external keys) answering every question
with -5. -/
def insomniaAllNegFive : SurveySubmission :=
  ⟨INSOMNIA_QUESTIONS.map (fun q => (q, -5)), 1⟩

/-- A complete fatigue submission answering every question with 1. -/
def fatigueAllOne : SurveySubmission :=
  ⟨FATIGUE_QUESTIONS.map (fun q => (q, 1)), 1⟩

/-- Whether `pat` occurs as a contiguous run inside `s` (both as character
lists); used to state that an error detail does not mention a question
identifier. -/
def occursIn (pat s : List Char) : Bool :=
  (List.range (s.length + 1)).any (fun i => (s.drop i).take pat.length == pat)

/-! ### Helper lemmas about the embedding -/

theorem setEq_true_iff (a b : List String) :
    setEq a b = true ↔ ∀ k, k ∈ a ↔ k ∈ b := by
  simp only [setEq, Bool.and_eq_true, List.all_eq_true, List.elem_eq_mem,
    decide_eq_true_eq]
  constructor
  · rintro ⟨h1, h2⟩ k
    exact ⟨fun hk => h1 k hk, fun hk => h2 k hk⟩
  · intro h
    exact ⟨fun k hk => (h k).mp hk, fun k hk => (h k).mpr hk⟩

theorem lookup_of_mem_keys {β : Type} {l : List (String × β)} {k : String}
    (h : k ∈ l.map Prod.fst) : ∃ v, List.lookup k l = some v := by
  induction l with
  | nil => simp at h
  | cons p t ih =>
    obtain ⟨a, b⟩ := p
    by_cases hk : k = a
    · exact ⟨b, by simp [List.lookup, hk]⟩
    · have hmem : k ∈ t.map Prod.fst := by
        rcases List.mem_cons.mp h with h' | h'
        · exact absurd h' hk
        · exact h'
      obtain ⟨v, hv⟩ := ih hmem
      have hba : (k == a) = false := beq_eq_false_iff_ne.mpr hk
      exact ⟨v, by simp [List.lookup, hba, hv]⟩

theorem lookup_eq_none_of_not_mem {β : Type} {l : List (String × β)} {k : String}
    (h : k ∉ l.map Prod.fst) : List.lookup k l = none := by
  induction l with
  | nil => rfl
  | cons p t ih =>
    obtain ⟨a, b⟩ := p
    simp only [List.map_cons, List.mem_cons, not_or] at h
    have hba : (k == a) = false := beq_eq_false_iff_ne.mpr h.1
    simp [List.lookup, hba, ih h.2]

theorem lookup_append {β : Type} (l₁ l₂ : List (String × β)) (k : String) :
    List.lookup k (l₁ ++ l₂) =
      (List.lookup k l₁).orElse (fun _ => List.lookup k l₂) := by
  induction l₁ with
  | nil => simp [List.lookup]
  | cons p t ih =>
    obtain ⟨a, b⟩ := p
    by_cases hk : k = a
    · simp [List.lookup, hk]
    · have hba : (k == a) = false := beq_eq_false_iff_ne.mpr hk
      simp [List.lookup, hba, ih]

theorem lookup_map_pair {β : Type} {qs : List String} (f : String → String)
    (g : String → β) {q : String} (hinj : (qs.map f).Nodup) (hq : q ∈ qs) :
    List.lookup (f q) (qs.map fun x => (f x, g x)) = some (g q) := by
  induction qs with
  | nil => simp at hq
  | cons a t ih =>
    simp only [List.map_cons, List.nodup_cons] at hinj
    rcases List.mem_cons.mp hq with rfl | hq'
    · simp [List.lookup]
    · have hne : f q ≠ f a := fun h => hinj.1 (h ▸ List.mem_map_of_mem f hq')
      have hba : (f q == f a) = false := beq_eq_false_iff_ne.mpr hne
      simp [List.lookup, hba, ih hinj.2 hq']

theorem keys_questionEntries (resp : List (String × Int)) (qs : List String)
    (norm : String → String) :
    (questionEntries resp qs norm).map Prod.fst = qs.map norm := by
  simp [questionEntries, List.map_map]

theorem resp_reconstruct (resp : List (String × Int))
    (h : (resp.map Prod.fst).Nodup) :
    (resp.map Prod.fst).map (fun k => (k, getD resp k)) = resp := by
  induction resp with
  | nil => rfl
  | cons p t ih =>
    obtain ⟨a, b⟩ := p
    simp only [List.map_cons, List.nodup_cons] at h
    simp only [List.map_cons]
    congr 1
    · simp [getD, List.lookup]
    · have hcongr : (t.map Prod.fst).map (fun k => (k, getD ((a, b) :: t) k)) =
          (t.map Prod.fst).map (fun k => (k, getD t k)) := by
        refine List.map_congr_left fun k hk => ?_
        have hne : k ≠ a := fun he => h.1 (he ▸ hk)
        have hba : (k == a) = false := beq_eq_false_iff_ne.mpr hne
        simp [getD, List.lookup, hba]
      rw [hcongr, ih h.2]

theorem sum_getD_perm (resp : List (String × Int)) (qs : List String)
    (hqs : qs.Nodup) (hk : (resp.map Prod.fst).Nodup)
    (hmem : ∀ k, k ∈ qs ↔ k ∈ resp.map Prod.fst) :
    (qs.map (getD resp)).sum = sumValues resp := by
  have hperm : qs.Perm (resp.map Prod.fst) :=
    List.perm_of_nodup_nodup_toFinset_eq hqs hk
      (Finset.ext fun a => by simp [List.mem_toFinset, hmem a])
  have h2 : (qs.map fun k => (k, getD resp k)).Perm resp := by
    have := hperm.map (fun k => (k, getD resp k))
    rwa [resp_reconstruct resp hk] at this
  have h3 := (h2.map Prod.snd).sum_eq
  have h4 : (qs.map fun k => (k, getD resp k)).map Prod.snd = qs.map (getD resp) := by
    simp [List.map_map]
  rw [h4] at h3
  exact h3

theorem buildData_ok (resp : List (String × Int)) (qs : List String)
    (norm : String → String) (h : ∀ q ∈ qs, q ∈ resp.map Prod.fst) :
    buildData resp qs norm = .ok (questionEntries resp qs norm) := by
  induction qs with
  | nil => rfl
  | cons q t ih =>
    obtain ⟨v, hv⟩ := lookup_of_mem_keys (h q (List.mem_cons_self q t))
    have ht := ih (fun x hx => h x (List.mem_cons_of_mem q hx))
    simp [buildData, hv, ht, questionEntries, getD]

theorem buildData_error_shape {resp : List (String × Int)} {qs : List String}
    {norm : String → String} {e : ApiError}
    (h : buildData resp qs norm = .error e) : ∃ q, e = .keyError q := by
  induction qs with
  | nil => simp [buildData] at h
  | cons q t ih =>
    rw [buildData] at h
    cases hl : List.lookup q resp with
    | none =>
      rw [hl] at h
      exact ⟨q, (Except.error.inj h).symm⟩
    | some v =>
      rw [hl] at h
      cases hb : buildData resp t norm with
      | error e' =>
        rw [hb] at h
        obtain rfl := Except.error.inj h
        exact ih hb
      | ok tail =>
        rw [hb] at h
        simp at h

theorem questionEntries_key_mem (resp : List (String × Int))
    (qs cols : List String)
    (hsub : ∀ x ∈ qs.map normKey, x ∈ cols) :
    ∀ a b, (a, b) ∈ questionEntries resp qs normKey → a ∈ cols := by
  intro a b hab
  rw [questionEntries] at hab
  obtain ⟨q, hq, heq⟩ := List.mem_map.mp hab
  injection heq with h1 h2
  subst h1
  exact hsub _ (List.mem_map_of_mem _ hq)

theorem submit_isma_survey_invalid (s : SurveySubmission)
    (h : setEq ISMA_QUESTIONS (s.responses.map Prod.fst) = false) :
    submit_isma_survey s =
      .error (.httpException 400 "Missing or extra questions in submission") := by
  unfold submit_isma_survey
  simp [h]

theorem submit_insomnia_survey_invalid (s : SurveySubmission)
    (h : setEq INSOMNIA_QUESTIONS (s.responses.map Prod.fst) = false) :
    submit_insomnia_survey s =
      .error (.httpException 400 "Missing or extra questions in submission") := by
  unfold submit_insomnia_survey
  simp [h]

theorem submit_fatigue_survey_invalid (s : SurveySubmission)
    (h : setEq FATIGUE_QUESTIONS (s.responses.map Prod.fst) = false) :
    submit_fatigue_survey s =
      .error (.httpException 400 "Missing or extra questions in Fatigue submission") := by
  unfold submit_fatigue_survey
  simp [h]

theorem submit_isma_survey_valid (resp : List (String × Int)) (u : Int)
    (h : setEq ISMA_QUESTIONS (resp.map Prod.fst) = true) :
    submit_isma_survey ⟨resp, u⟩ =
      .error (.attributeError "user_idisma_data") := by
  have hmem := (setEq_true_iff _ _).mp h
  have hbd := buildData_ok resp ISMA_QUESTIONS (fun q => q)
    (fun q hq => (hmem q).mp hq)
  unfold submit_isma_survey
  simp [h, hbd]

theorem submit_insomnia_survey_ok (resp : List (String × Int)) (u : Int)
    (h : setEq INSOMNIA_QUESTIONS (resp.map Prod.fst) = true) :
    submit_insomnia_survey ⟨resp, u⟩ =
      .ok (insomniaRow resp u, insomniaClassify (sumValues resp)) := by
  have hmem := (setEq_true_iff _ _).mp h
  have hbd := buildData_ok resp INSOMNIA_QUESTIONS normKey
    (fun q hq => (hmem q).mp hq)
  unfold submit_insomnia_survey
  simp [h, hbd, insomniaRow]
  exact ⟨questionEntries_key_mem resp INSOMNIA_QUESTIONS INSOMNIA_TABLE_COLUMNS
    (by decide), by decide, by decide, by decide⟩

theorem submit_fatigue_survey_ok (resp : List (String × Int)) (u : Int)
    (h : setEq FATIGUE_QUESTIONS (resp.map Prod.fst) = true) :
    submit_fatigue_survey ⟨resp, u⟩ =
      .ok (fatigueRow resp u, fatigueClassify (sumValues resp)) := by
  have hmem := (setEq_true_iff _ _).mp h
  have hbd := buildData_ok resp FATIGUE_QUESTIONS normKey
    (fun q hq => (hmem q).mp hq)
  unfold submit_fatigue_survey
  simp [h, hbd, fatigueRow]
  exact ⟨questionEntries_key_mem resp FATIGUE_QUESTIONS FATIGUE_TABLE_COLUMNS
    (by decide), by decide, by decide, by decide⟩

theorem row_total_sum (resp : List (String × Int)) (u : Int) (S : Int)
    (l : String) (qs : List String) (hts : "total_sum" ∉ qs.map normKey) :
    List.lookup "total_sum"
      (questionEntries resp qs normKey ++
        [("user_id", Value.int u), ("total_sum", Value.int S),
         ("question_mn", Value.str l)]) = some (Value.int S) := by
  rw [lookup_append]
  have h1 : List.lookup "total_sum" (questionEntries resp qs normKey) = none :=
    lookup_eq_none_of_not_mem (by rwa [keys_questionEntries])
  rw [h1]
  simp [List.lookup]

theorem row_question_values (resp : List (String × Int)) (qs : List String)
    (tail : Row) (hinj : (qs.map normKey).Nodup) :
    (qs.map normKey).map
      (fun c => rowInt (questionEntries resp qs normKey ++ tail) c) =
      qs.map (getD resp) := by
  rw [List.map_map]
  refine List.map_congr_left fun q hq => ?_
  show rowInt (questionEntries resp qs normKey ++ tail) (normKey q) = getD resp q
  have h1 : List.lookup (normKey q) (questionEntries resp qs normKey) =
      some (Value.int (getD resp q)) := by
    rw [questionEntries]
    exact lookup_map_pair normKey (fun x => Value.int (getD resp x)) hinj hq
  rw [rowInt, lookup_append, h1]
  rfl

theorem insomniaRow_sum_invariant (resp : List (String × Int)) (u : Int)
    (hk : (resp.map Prod.fst).Nodup)
    (hmem : ∀ k, k ∈ INSOMNIA_QUESTIONS ↔ k ∈ resp.map Prod.fst) :
    List.lookup "total_sum" (insomniaRow resp u) =
      some (Value.int
        ((INSOMNIA_COLUMNS.map (rowInt (insomniaRow resp u))).sum)) := by
  have hcols : INSOMNIA_COLUMNS = INSOMNIA_QUESTIONS.map normKey := by decide
  have hinj : (INSOMNIA_QUESTIONS.map normKey).Nodup := by decide
  have hqs : INSOMNIA_QUESTIONS.Nodup := by decide
  have hts : "total_sum" ∉ INSOMNIA_QUESTIONS.map normKey := by decide
  have hvals : (INSOMNIA_COLUMNS.map (rowInt (insomniaRow resp u))).sum =
      sumValues resp := by
    rw [hcols, insomniaRow,
      row_question_values resp INSOMNIA_QUESTIONS _ hinj,
      sum_getD_perm resp INSOMNIA_QUESTIONS hqs hk hmem]
  rw [hvals, insomniaRow,
    row_total_sum resp u (sumValues resp) _ INSOMNIA_QUESTIONS hts]

theorem fatigueRow_sum_invariant (resp : List (String × Int)) (u : Int)
    (hk : (resp.map Prod.fst).Nodup)
    (hmem : ∀ k, k ∈ FATIGUE_QUESTIONS ↔ k ∈ resp.map Prod.fst) :
    List.lookup "total_sum" (fatigueRow resp u) =
      some (Value.int
        ((FATIGUE_COLUMNS.map (rowInt (fatigueRow resp u))).sum)) := by
  have hcols : FATIGUE_COLUMNS = FATIGUE_QUESTIONS.map normKey := by decide
  have hinj : (FATIGUE_QUESTIONS.map normKey).Nodup := by decide
  have hqs : FATIGUE_QUESTIONS.Nodup := by decide
  have hts : "total_sum" ∉ FATIGUE_QUESTIONS.map normKey := by decide
  have hvals : (FATIGUE_COLUMNS.map (rowInt (fatigueRow resp u))).sum =
      sumValues resp := by
    rw [hcols, fatigueRow,
      row_question_values resp FATIGUE_QUESTIONS _ hinj,
      sum_getD_perm resp FATIGUE_QUESTIONS hqs hk hmem]
  rw [hvals, fatigueRow,
    row_total_sum resp u (sumValues resp) _ FATIGUE_QUESTIONS hts]

theorem submit_insomnia_survey_ok_iff (resp : List (String × Int)) (u : Int)
    (row : Row) (l : String) :
    submit_insomnia_survey ⟨resp, u⟩ = .ok (row, l) ↔
      setEq INSOMNIA_QUESTIONS (resp.map Prod.fst) = true ∧
      row = insomniaRow resp u ∧ l = insomniaClassify (sumValues resp) := by
  constructor
  · intro h
    cases hset : setEq INSOMNIA_QUESTIONS (resp.map Prod.fst) with
    | false =>
      rw [submit_insomnia_survey_invalid ⟨resp, u⟩ hset] at h
      simp at h
    | true =>
      rw [submit_insomnia_survey_ok resp u hset] at h
      simp only [Except.ok.injEq, Prod.mk.injEq] at h
      exact ⟨rfl, h.1.symm, h.2.symm⟩
  · rintro ⟨hset, rfl, rfl⟩
    exact submit_insomnia_survey_ok resp u hset

theorem submit_fatigue_survey_ok_iff (resp : List (String × Int)) (u : Int)
    (row : Row) (l : String) :
    submit_fatigue_survey ⟨resp, u⟩ = .ok (row, l) ↔
      setEq FATIGUE_QUESTIONS (resp.map Prod.fst) = true ∧
      row = fatigueRow resp u ∧ l = fatigueClassify (sumValues resp) := by
  constructor
  · intro h
    cases hset : setEq FATIGUE_QUESTIONS (resp.map Prod.fst) with
    | false =>
      rw [submit_fatigue_survey_invalid ⟨resp, u⟩ hset] at h
      simp at h
    | true =>
      rw [submit_fatigue_survey_ok resp u hset] at h
      simp only [Except.ok.injEq, Prod.mk.injEq] at h
      exact ⟨rfl, h.1.symm, h.2.symm⟩
  · rintro ⟨hset, rfl, rfl⟩
    exact submit_fatigue_survey_ok resp u hset

theorem classifyBands_isma (s : Int) :
    classifyBands ismaBands s = some (ismaClassify s) := by
  rw [classifyBands, ismaBands, ismaClassify]
  by_cases h1 : s ≤ 5
  · simp [List.find?, bandMatches, h1]
  · by_cases h2 : s ≤ 10
    · have h6 : (6 : Int) ≤ s := by omega
      simp [List.find?, bandMatches, h1, h2, h6]
    · have h11 : (11 : Int) ≤ s := by omega
      simp [List.find?, bandMatches, h1, h2, h11]

theorem classifyBands_insomnia (s : Int) :
    classifyBands insomniaBands s = some (insomniaClassify s) := by
  rw [classifyBands, insomniaBands, insomniaClassify]
  by_cases h1 : s ≤ 7
  · have : s < 8 := by omega
    simp [List.find?, bandMatches, h1, this]
  · by_cases h2 : s ≤ 14
    · have h8 : (8 : Int) ≤ s := by omega
      have hn8 : ¬ s < 8 := by omega
      have h15 : s < 15 := by omega
      simp [List.find?, bandMatches, h1, h2, h8, hn8, h15]
    · by_cases h3 : s ≤ 21
      · have h15 : (15 : Int) ≤ s := by omega
        have hn8 : ¬ s < 8 := by omega
        have hn15 : ¬ s < 15 := by omega
        have h22 : s < 22 := by omega
        simp [List.find?, bandMatches, h1, h2, h3, h15, hn8, hn15, h22]
      · have h22 : (22 : Int) ≤ s := by omega
        have hn8 : ¬ s < 8 := by omega
        have hn15 : ¬ s < 15 := by omega
        have hn22 : ¬ s < 22 := by omega
        simp [List.find?, bandMatches, h1, h2, h3, h22, hn8, hn15, hn22]

theorem classifyBands_fatigue (s : Int) :
    classifyBands fatigueBands s = some (fatigueClassify s) := by
  rw [classifyBands, fatigueBands, fatigueClassify]
  by_cases h1 : s ≤ 10
  · simp [List.find?, bandMatches, h1]
  · by_cases h2 : s ≤ 24
    · have h11 : (11 : Int) ≤ s := by omega
      simp [List.find?, bandMatches, h1, h2, h11]
    · by_cases h3 : s ≤ 51
      · have h25 : (25 : Int) ≤ s := by omega
        simp [List.find?, bandMatches, h1, h2, h3, h25]
      · have h52 : (52 : Int) ≤ s := by omega
        simp [List.find?, bandMatches, h1, h2, h3, h52]

theorem bands_unique_isma (s : Int) :
    (ismaBands.filter (bandMatches s)).length = 1 := by
  rw [ismaBands]
  by_cases h1 : s ≤ 5
  · have hA : ¬ (6 : Int) ≤ s := by omega
    have hB : ¬ (11 : Int) ≤ s := by omega
    simp [List.filter, bandMatches, h1, hA, hB]
  · by_cases h2 : s ≤ 10
    · have h6 : (6 : Int) ≤ s := by omega
      have hB : ¬ (11 : Int) ≤ s := by omega
      simp [List.filter, bandMatches, h1, h2, h6, hB]
    · have h11 : (11 : Int) ≤ s := by omega
      simp [List.filter, bandMatches, h1, h2, h11]

theorem bands_unique_insomnia (s : Int) :
    (insomniaBands.filter (bandMatches s)).length = 1 := by
  rw [insomniaBands]
  by_cases h1 : s ≤ 7
  · have hA : ¬ (8 : Int) ≤ s := by omega
    have hB : ¬ (15 : Int) ≤ s := by omega
    have hC : ¬ (22 : Int) ≤ s := by omega
    simp [List.filter, bandMatches, h1, hA, hB, hC]
  · by_cases h2 : s ≤ 14
    · have h8 : (8 : Int) ≤ s := by omega
      have hB : ¬ (15 : Int) ≤ s := by omega
      have hC : ¬ (22 : Int) ≤ s := by omega
      simp [List.filter, bandMatches, h1, h2, h8, hB, hC]
    · by_cases h3 : s ≤ 21
      · have h15 : (15 : Int) ≤ s := by omega
        have hC : ¬ (22 : Int) ≤ s := by omega
        simp [List.filter, bandMatches, h1, h2, h3, h15, hC]
      · have h22 : (22 : Int) ≤ s := by omega
        simp [List.filter, bandMatches, h1, h2, h3, h22]

theorem bands_unique_fatigue (s : Int) :
    (fatigueBands.filter (bandMatches s)).length = 1 := by
  rw [fatigueBands]
  by_cases h1 : s ≤ 10
  · have hA : ¬ (11 : Int) ≤ s := by omega
    have hB : ¬ (25 : Int) ≤ s := by omega
    have hC : ¬ (52 : Int) ≤ s := by omega
    simp [List.filter, bandMatches, h1, hA, hB, hC]
  · by_cases h2 : s ≤ 24
    · have h11 : (11 : Int) ≤ s := by omega
      have hB : ¬ (25 : Int) ≤ s := by omega
      have hC : ¬ (52 : Int) ≤ s := by omega
      simp [List.filter, bandMatches, h1, h2, h11, hB, hC]
    · by_cases h3 : s ≤ 51
      · have h25 : (25 : Int) ≤ s := by omega
        have hC : ¬ (52 : Int) ≤ s := by omega
        simp [List.filter, bandMatches, h1, h2, h3, h25, hC]
      · have h52 : (52 : Int) ≤ s := by omega
        simp [List.filter, bandMatches, h1, h2, h3, h52]

theorem keys_map_pair_self (qs : List String) (v : String → Int) :
    (qs.map fun q => (q, v q)).map Prod.fst = qs := by
  rw [List.map_map]
  have hcomp : (Prod.fst ∘ fun q : String => (q, v q)) = id := rfl
  rw [hcomp, List.map_id]

theorem sumValues_map_pair (qs : List String) (v : String → Int) :
    sumValues (qs.map fun q => (q, v q)) = (qs.map v).sum := by
  simp [sumValues, List.map_map]
  rfl

theorem setEq_self (a : List String) : setEq a a = true :=
  (setEq_true_iff a a).mpr fun _ => Iff.rfl

theorem submit_isma_map_values (v : String → Int) (u : Int) :
    submit_isma_survey ⟨ISMA_QUESTIONS.map (fun q => (q, v q)), u⟩ =
      .error (.attributeError "user_idisma_data") := by
  have hset : setEq ISMA_QUESTIONS
      ((ISMA_QUESTIONS.map fun q => (q, v q)).map Prod.fst) = true := by
    rw [keys_map_pair_self]
    exact setEq_self _
  exact submit_isma_survey_valid _ u hset

theorem submit_insomnia_map_values (v : String → Int) (u : Int) :
    submit_insomnia_survey ⟨INSOMNIA_QUESTIONS.map (fun q => (q, v q)), u⟩ =
      .ok (insomniaRow (INSOMNIA_QUESTIONS.map (fun q => (q, v q))) u,
        insomniaClassify ((INSOMNIA_QUESTIONS.map v).sum)) := by
  have hset : setEq INSOMNIA_QUESTIONS
      ((INSOMNIA_QUESTIONS.map fun q => (q, v q)).map Prod.fst) = true := by
    rw [keys_map_pair_self]
    exact setEq_self _
  rw [submit_insomnia_survey_ok _ u hset, sumValues_map_pair]

theorem submit_fatigue_map_values (v : String → Int) (u : Int) :
    submit_fatigue_survey ⟨FATIGUE_QUESTIONS.map (fun q => (q, v q)), u⟩ =
      .ok (fatigueRow (FATIGUE_QUESTIONS.map (fun q => (q, v q))) u,
        fatigueClassify ((FATIGUE_QUESTIONS.map v).sum)) := by
  have hset : setEq FATIGUE_QUESTIONS
      ((FATIGUE_QUESTIONS.map fun q => (q, v q)).map Prod.fst) = true := by
    rw [keys_map_pair_self]
    exact setEq_self _
  rw [submit_fatigue_survey_ok _ u hset, sumValues_map_pair]

/-! ### Claim theorems -/

/-- C1: a submission whose response keys exactly match `ISMA_QUESTIONS` is
accepted by validation, yet the ISMA endpoint does not persist a row or
return the label: line 223 (`submission.user_idisma_data`) raises
`AttributeError` on every valid submission, while the insomnia and fatigue
endpoints do succeed, persist one row and return the label.  This proves
the claim false for ISMA (the code bug), true for the other two. -/
theorem C1_isma_submit_crashes :
    setEq ISMA_QUESTIONS (ismaAllZero.responses.map Prod.fst) = true ∧
    submit_isma_survey ismaAllZero =
      .error (.attributeError "user_idisma_data") ∧
    (∃ row, submit_insomnia_survey insomniaAllOne =
      .ok (row, insomniaClassify (sumValues insomniaAllOne.responses))) ∧
    (∃ row, submit_fatigue_survey fatigueAllOne =
      .ok (row, fatigueClassify (sumValues fatigueAllOne.responses))) :=
  ⟨by decide,
   submit_isma_survey_valid ismaAllZero.responses 1 (by decide),
   ⟨_, submit_insomnia_survey_ok insomniaAllOne.responses 1 (by decide)⟩,
   ⟨_, submit_fatigue_survey_ok fatigueAllOne.responses 1 (by decide)⟩⟩

/-- C2 counterexample: a submission missing `sleep_enough` and a submission
with the extra key `extra_question` are both rejected with the identical
fixed detail string, and that string mentions neither the missing
question identifier nor the unexpected one — so the error does not report
`Q \ K` or `K \ Q`, contradicting the claim. -/
theorem C2_error_reports_no_questions :
    submit_isma_survey ismaMissingOne =
      .error (.httpException 400 "Missing or extra questions in submission") ∧
    submit_isma_survey ismaExtraKey =
      .error (.httpException 400 "Missing or extra questions in submission") ∧
    occursIn "sleep_enough".data
      "Missing or extra questions in submission".data = false ∧
    occursIn "extra_question".data
      "Missing or extra questions in submission".data = false :=
  ⟨submit_isma_survey_invalid _ (by decide),
   submit_isma_survey_invalid _ (by decide),
   by decide, by decide⟩

/-- C2 (amended): each endpoint rejects a submission with HTTP 400 and its
fixed detail string exactly when the submission's key set differs from the
instrument's question-identifier set (set equality in both directions);
the error payload is that constant message, which does not enumerate the
missing or unexpected questions. -/
theorem C2_validation_iff_fixed_error :
    ∀ s : SurveySubmission,
      (submit_isma_survey s =
          .error (.httpException 400 "Missing or extra questions in submission") ↔
        setEq ISMA_QUESTIONS (s.responses.map Prod.fst) = false) ∧
      (submit_insomnia_survey s =
          .error (.httpException 400 "Missing or extra questions in submission") ↔
        setEq INSOMNIA_QUESTIONS (s.responses.map Prod.fst) = false) ∧
      (submit_fatigue_survey s =
          .error (.httpException 400 "Missing or extra questions in Fatigue submission") ↔
        setEq FATIGUE_QUESTIONS (s.responses.map Prod.fst) = false) := by
  intro s
  obtain ⟨resp, u⟩ := s
  refine ⟨?_, ?_, ?_⟩
  · cases hset : setEq ISMA_QUESTIONS (resp.map Prod.fst) with
    | false => simp [submit_isma_survey_invalid ⟨resp, u⟩ hset]
    | true => simp [submit_isma_survey_valid resp u hset]
  · cases hset : setEq INSOMNIA_QUESTIONS (resp.map Prod.fst) with
    | false => simp [submit_insomnia_survey_invalid ⟨resp, u⟩ hset]
    | true => simp [submit_insomnia_survey_ok resp u hset]
  · cases hset : setEq FATIGUE_QUESTIONS (resp.map Prod.fst) with
    | false => simp [submit_fatigue_survey_invalid ⟨resp, u⟩ hset]
    | true => simp [submit_fatigue_survey_ok resp u hset]

/-- C3: ISMA classification returns the first label iff `total_sum <= 5`,
the second iff `6 <= total_sum <= 10`, the third iff `total_sum >= 11`,
and in particular maps 5, 6, 11 to the first, second, third label. -/
theorem C3_isma_classification :
    (∀ total_sum : Int,
      (ismaClassify total_sum = "Стрессээр өвчлөх магадлал бага" ↔
        total_sum ≤ 5) ∧
      (ismaClassify total_sum = "Стрессээр өвчлөх магадлал өндөр" ↔
        6 ≤ total_sum ∧ total_sum ≤ 10) ∧
      (ismaClassify total_sum = "Стрессийн түвшин маш өндөр байна" ↔
        11 ≤ total_sum)) ∧
    ismaClassify 5 = "Стрессээр өвчлөх магадлал бага" ∧
    ismaClassify 6 = "Стрессээр өвчлөх магадлал өндөр" ∧
    ismaClassify 11 = "Стрессийн түвшин маш өндөр байна" := by
  refine ⟨fun s => ?_, by decide, by decide, by decide⟩
  unfold ismaClassify
  split_ifs with h1 h2 <;> refine ⟨?_, ?_, ?_⟩ <;> simp_all <;> omega

/-- C4: Insomnia classification uses strict `<` thresholds: "none" iff
`total_sum < 8`, "mild" iff `8 <= total_sum < 15`, "moderate" iff
`15 <= total_sum < 22`, "severe" iff `total_sum >= 22`, and in particular
maps 7, 8, 21, 22 to those four labels. -/
theorem C4_insomnia_classification :
    (∀ total_sum : Int,
      (insomniaClassify total_sum = "Нойргүйдэл байхгүй" ↔
        total_sum < 8) ∧
      (insomniaClassify total_sum = "Нойргүйдлийн зэрэг бага" ↔
        8 ≤ total_sum ∧ total_sum < 15) ∧
      (insomniaClassify total_sum = "Дунд зэргийн нойргүйдэлтэй" ↔
        15 ≤ total_sum ∧ total_sum < 22) ∧
      (insomniaClassify total_sum = "Нойргүйдлийн зэрэг хүнд явцтай" ↔
        22 ≤ total_sum)) ∧
    insomniaClassify 7 = "Нойргүйдэл байхгүй" ∧
    insomniaClassify 8 = "Нойргүйдлийн зэрэг бага" ∧
    insomniaClassify 21 = "Дунд зэргийн нойргүйдэлтэй" ∧
    insomniaClassify 22 = "Нойргүйдлийн зэрэг хүнд явцтай" := by
  refine ⟨fun s => ?_, by decide, by decide, by decide, by decide⟩
  unfold insomniaClassify
  split_ifs with h1 h2 h3 <;> refine ⟨?_, ?_, ?_, ?_⟩ <;> simp_all <;> omega

/-- C5: Fatigue classification uses inclusive `<=` thresholds: band A iff
`total_sum <= 10`, band B iff `11 <= total_sum <= 24`, band C iff
`25 <= total_sum <= 51`, band D iff `total_sum >= 52`, and in particular
maps 10, 11, 51, 52 to the four bands. -/
theorem C5_fatigue_classification :
    (∀ total_sum : Int,
      (fatigueClassify total_sum = "Архаг ядаргаатай" ↔
        total_sum ≤ 10) ∧
      (fatigueClassify total_sum = "Бага зэргийн архаг ядаргаатай" ↔
        11 ≤ total_sum ∧ total_sum ≤ 24) ∧
      (fatigueClassify total_sum = "Дунд зэргийн архаг ядаргаатай" ↔
        25 ≤ total_sum ∧ total_sum ≤ 51) ∧
      (fatigueClassify total_sum = "Хүнд зэргийн архаг ядаргаатай" ↔
        52 ≤ total_sum)) ∧
    fatigueClassify 10 = "Архаг ядаргаатай" ∧
    fatigueClassify 11 = "Бага зэргийн архаг ядаргаатай" ∧
    fatigueClassify 51 = "Дунд зэргийн архаг ядаргаатай" ∧
    fatigueClassify 52 = "Хүнд зэргийн архаг ядаргаатай" := by
  refine ⟨fun s => ?_, by decide, by decide, by decide, by decide⟩
  unfold fatigueClassify
  split_ifs with h1 h2 h3 <;> refine ⟨?_, ?_, ?_, ?_⟩ <;> simp_all <;> omega

/-- C6: for every accepted submission (dict keys unique, key set matching
the instrument), the persisted row stores at `total_sum` exactly the sum
of the integers stored in its per-question columns, for the two endpoints
that persist a row; and the ISMA example: all 24 responses equal to 1
gives a computed sum of 24 and the "very high" label. -/
theorem C6_total_sum_invariant :
    (∀ resp u row l,
      submit_insomnia_survey ⟨resp, u⟩ = .ok (row, l) →
      (resp.map Prod.fst).Nodup →
      List.lookup "total_sum" row =
        some (Value.int ((INSOMNIA_COLUMNS.map (rowInt row)).sum))) ∧
    (∀ resp u row l,
      submit_fatigue_survey ⟨resp, u⟩ = .ok (row, l) →
      (resp.map Prod.fst).Nodup →
      List.lookup "total_sum" row =
        some (Value.int ((FATIGUE_COLUMNS.map (rowInt row)).sum))) ∧
    sumValues ismaAllOne.responses = 24 ∧
    ismaClassify 24 = "Стрессийн түвшин маш өндөр байна" := by
  refine ⟨?_, ?_, by decide, by decide⟩
  · intro resp u row l hok hnd
    obtain ⟨hset, rfl, rfl⟩ :=
      (submit_insomnia_survey_ok_iff resp u row l).mp hok
    exact insomniaRow_sum_invariant resp u hnd
      (fun k => (setEq_true_iff _ _).mp hset k)
  · intro resp u row l hok hnd
    obtain ⟨hset, rfl, rfl⟩ :=
      (submit_fatigue_survey_ok_iff resp u row l).mp hok
    exact fatigueRow_sum_invariant resp u hnd
      (fun k => (setEq_true_iff _ _).mp hset k)

/-- C6 witness: the invariant applied to the concrete all-ones insomnia
submission. -/
theorem C6_total_sum_invariant_witness :
    List.lookup "total_sum" (insomniaRow insomniaAllOne.responses 1) =
      some (Value.int ((INSOMNIA_COLUMNS.map
        (rowInt (insomniaRow insomniaAllOne.responses 1))).sum)) :=
  C6_total_sum_invariant.1 insomniaAllOne.responses 1
    (insomniaRow insomniaAllOne.responses 1)
    (insomniaClassify (sumValues insomniaAllOne.responses))
    (submit_insomnia_survey_ok insomniaAllOne.responses 1 (by decide))
    (by decide)

/-- C7: for every integer sum (hence in particular on `[0, max]` for any
maximum achievable sum), each instrument's band table matches exactly one
band — no gap, no double match — and the first-match lookup returns that
label (never the `NoMatchingBand` failure `none`), agreeing with the
code's classification chain. -/
theorem C7_classification_totality :
    ∀ s : Int,
      ((ismaBands.filter (bandMatches s)).length = 1 ∧
        classifyBands ismaBands s = some (ismaClassify s)) ∧
      ((insomniaBands.filter (bandMatches s)).length = 1 ∧
        classifyBands insomniaBands s = some (insomniaClassify s)) ∧
      ((fatigueBands.filter (bandMatches s)).length = 1 ∧
        classifyBands fatigueBands s = some (fatigueClassify s)) :=
  fun s =>
    ⟨⟨bands_unique_isma s, classifyBands_isma s⟩,
     ⟨bands_unique_insomnia s, classifyBands_insomnia s⟩,
     ⟨bands_unique_fatigue s, classifyBands_fatigue s⟩⟩

/-- C8: a submission whose key set differs from the instrument's question
set is rejected by each endpoint with the validation error itself: the
result is the 400 error, not an `.ok` carrying a row, so nothing is added
or committed to the store, and the outcome is independent of summation
and classification. -/
theorem C8_invalid_rejected_before_persistence :
    (∀ s : SurveySubmission,
      setEq ISMA_QUESTIONS (s.responses.map Prod.fst) = false →
      submit_isma_survey s =
        .error (.httpException 400 "Missing or extra questions in submission")) ∧
    (∀ s : SurveySubmission,
      setEq INSOMNIA_QUESTIONS (s.responses.map Prod.fst) = false →
      submit_insomnia_survey s =
        .error (.httpException 400 "Missing or extra questions in submission")) ∧
    (∀ s : SurveySubmission,
      setEq FATIGUE_QUESTIONS (s.responses.map Prod.fst) = false →
      submit_fatigue_survey s =
        .error (.httpException 400 "Missing or extra questions in Fatigue submission")) :=
  ⟨submit_isma_survey_invalid, submit_insomnia_survey_invalid,
   submit_fatigue_survey_invalid⟩

/-- C8 witness: the empty submission is rejected by all three endpoints. -/
theorem C8_invalid_rejected_before_persistence_witness :
    submit_isma_survey ⟨[], 1⟩ =
      .error (.httpException 400 "Missing or extra questions in submission") ∧
    submit_insomnia_survey ⟨[], 1⟩ =
      .error (.httpException 400 "Missing or extra questions in submission") ∧
    submit_fatigue_survey ⟨[], 1⟩ =
      .error (.httpException 400 "Missing or extra questions in Fatigue submission") :=
  ⟨C8_invalid_rejected_before_persistence.1 ⟨[], 1⟩ (by decide),
   C8_invalid_rejected_before_persistence.2.1 ⟨[], 1⟩ (by decide),
   C8_invalid_rejected_before_persistence.2.2 ⟨[], 1⟩ (by decide)⟩

/-- C9 counterexample: the all-ones external-key submission and the
canonical-key submission have the same normalized key list, yet the
insomnia endpoint accepts the first and rejects the second with the
validation error — validation compares the raw external keys, so the
normalization mapping is not applied before validation. -/
theorem C9_normalization_after_validation :
    insomniaCanonicalKeys.responses.map (fun p => normKey p.1) =
      insomniaAllOne.responses.map (fun p => normKey p.1) ∧
    (∃ r, submit_insomnia_survey insomniaAllOne = .ok r) ∧
    submit_insomnia_survey insomniaCanonicalKeys =
      .error (.httpException 400 "Missing or extra questions in submission") :=
  ⟨by decide,
   ⟨_, submit_insomnia_survey_ok insomniaAllOne.responses 1 (by decide)⟩,
   submit_insomnia_survey_invalid _ (by decide)⟩

/-- C9 (amended): for Insomnia and Fatigue, each declared external key is
deterministically mapped to its canonical key by replacing spaces with
underscores and lower-casing; the mapping is total over the declared
external key set and its image is exactly the canonical question-column
identifiers, one row field per canonical question id — but it is applied
when building the persistence row, after validation, which compares the
raw external keys. -/
theorem C9_mapping_total_image_exact :
    INSOMNIA_QUESTIONS.map normKey = INSOMNIA_COLUMNS ∧
    FATIGUE_QUESTIONS.map normKey = FATIGUE_COLUMNS ∧
    (∀ resp u row l,
      submit_insomnia_survey ⟨resp, u⟩ = .ok (row, l) →
      row.map Prod.fst =
        INSOMNIA_COLUMNS ++ ["user_id", "total_sum", "question_mn"]) ∧
    (∀ resp u row l,
      submit_fatigue_survey ⟨resp, u⟩ = .ok (row, l) →
      row.map Prod.fst =
        FATIGUE_COLUMNS ++ ["user_id", "total_sum", "question_mn"]) := by
  refine ⟨by decide, by decide, ?_, ?_⟩
  · intro resp u row l hok
    obtain ⟨hset, rfl, rfl⟩ :=
      (submit_insomnia_survey_ok_iff resp u row l).mp hok
    rw [insomniaRow, List.map_append, keys_questionEntries,
      show INSOMNIA_QUESTIONS.map normKey = INSOMNIA_COLUMNS from by decide]
    rfl
  · intro resp u row l hok
    obtain ⟨hset, rfl, rfl⟩ :=
      (submit_fatigue_survey_ok_iff resp u row l).mp hok
    rw [fatigueRow, List.map_append, keys_questionEntries,
      show FATIGUE_QUESTIONS.map normKey = FATIGUE_COLUMNS from by decide]
    rfl

/-- C9 witness: the row-field property at the concrete all-ones insomnia
submission. -/
theorem C9_mapping_total_image_exact_witness :
    (insomniaRow insomniaAllOne.responses 1).map Prod.fst =
      INSOMNIA_COLUMNS ++ ["user_id", "total_sum", "question_mn"] :=
  C9_mapping_total_image_exact.2.2.1 insomniaAllOne.responses 1
    (insomniaRow insomniaAllOne.responses 1)
    (insomniaClassify (sumValues insomniaAllOne.responses))
    (submit_insomnia_survey_ok insomniaAllOne.responses 1 (by decide))

/-- C10: each instrument's band lookup returns some label for every
integer sum, negative and arbitrarily large included (the final
unconditional else is a catch-all), so no `NoMatchingBand`-style failure
exists; and response values are accepted as arbitrary integers with no
range check: for every value assignment the submissions pass validation,
the values flowing unchanged into the sum (ISMA then failing only at the
later attribute bug, never at validation). -/
theorem C10_catch_all_no_range_check :
    (∀ s : Int, (classifyBands ismaBands s).isSome = true) ∧
    (∀ s : Int, (classifyBands insomniaBands s).isSome = true) ∧
    (∀ s : Int, (classifyBands fatigueBands s).isSome = true) ∧
    (∀ (v : String → Int) (u : Int),
      submit_isma_survey ⟨ISMA_QUESTIONS.map (fun q => (q, v q)), u⟩ =
        .error (.attributeError "user_idisma_data")) ∧
    (∀ (v : String → Int) (u : Int), ∃ row,
      submit_insomnia_survey ⟨INSOMNIA_QUESTIONS.map (fun q => (q, v q)), u⟩ =
        .ok (row, insomniaClassify ((INSOMNIA_QUESTIONS.map v).sum))) ∧
    (∀ (v : String → Int) (u : Int), ∃ row,
      submit_fatigue_survey ⟨FATIGUE_QUESTIONS.map (fun q => (q, v q)), u⟩ =
        .ok (row, fatigueClassify ((FATIGUE_QUESTIONS.map v).sum))) := by
  refine ⟨fun s => ?_, fun s => ?_, fun s => ?_, submit_isma_map_values,
    fun v u => ⟨_, submit_insomnia_map_values v u⟩,
    fun v u => ⟨_, submit_fatigue_map_values v u⟩⟩
  · rw [classifyBands_isma]
    rfl
  · rw [classifyBands_insomnia]
    rfl
  · rw [classifyBands_fatigue]
    rfl

end ProgressiveBackend
